import Mathlib

/-!
Verification development for the text-to-SQL engine
(schema introspection, query validation/execution, bounded correction loop).

The definitions below are a shallow embedding of the Python sources:
  - `agents.py`   : `SQLProcessor._run_async_impl`, `CorrectionLoopAgent._run_async_impl`
  - `tools.py`    : `run_sql_validation`, `run_sql_execution`
  - `engine.py`   : `SQLValidator.validate`, `SQLExecutor.execute`
  - `dialects/dialect.py` : schema cache and `_parse_ddl_to_sqlglot_schema`
  - `dialects/sqlite.py`, `dialects/postgres.py` : type genericization

External collaborators (the LLM agents, the sqlglot library, the DB driver)
are modelled as explicit oracle parameters; everything that is this
repository's own control flow is translated directly from the source.
-/

namespace TextToSQL

/-- A database row, abstracted to a list of cell texts. -/
abbrev Row := List String

/-- `run_sql_validation` / `SQLValidator.validate` result dict (`tools.py`, `engine.py`):
`{"status": "success"}` or `{"status": "error", "errors": [...]}`. -/
inductive ValResult
  | success
  | error (errors : List String)
  deriving DecidableEq, Repr

/-- `run_sql_execution` result dict (`tools.py`) plus the `skipped` outcome written by
`SQLProcessor` (`agents.py`): `{"status": "success", "result": rows}`,
`{"status": "error", "error_message": msg}`, or `{"status": "skipped", "reason": r}`. -/
inductive ExecResult
  | success (result : List Row)
  | error (error_message : String)
  | skipped (reason : String)
  deriving DecidableEq, Repr

/-- Python `execution_result.get("error_message", default)`: only the error variant
carries an `error_message` key. -/
def ExecResult.errorMessage? : ExecResult → Option String
  | .error m => some m
  | _ => none

/-- `execution_result.get("status") == "success"` on a present dict. -/
def ExecResult.statusIsSuccess : ExecResult → Bool
  | .success _ => true
  | _ => false

/-- `val_result.get("status") == "success"`. -/
def ValResult.statusIsSuccess : ValResult → Bool
  | .success => true
  | _ => false

/-- Value stored in the `sqlglot_schema` state entry: normally a table's column dict,
but `load_schema_into_state` stores a plain error string under the key `"error"`. -/
inductive SchemaVal
  | cols (cs : List (String × String))
  | msg (s : String)
  deriving DecidableEq, Repr

/-- Rendering of a `SchemaVal` inside an f-string (`tools.py` interpolates
`sqlglot_schema['error']`); a column dict is abstracted to a placeholder. -/
def SchemaVal.asText : SchemaVal → String
  | .cols _ => "<schema>"
  | .msg s => s

/-- The state value under `"sqlglot_schema"`: a Python dict, modelled as an
insertion-ordered association list. -/
abbrev SqlglotSchema := List (String × SchemaVal)

/-- The ADK session-state keys this engine reads and writes.  `none` models both a
missing key and an explicit `None` value (as written by `capture_user_message`). -/
structure AgentState where
  sql_query : Option String := none
  validation_result : Option ValResult := none
  execution_result : Option ExecResult := none
  final_sql_query : Option String := none
  sqlglot_schema : Option SqlglotSchema := none
  schema_ddl : Option String := none
  deriving DecidableEq, Repr

/-- `execution_result = state.get("execution_result", {})` followed by
`execution_result.get("status") == "success"` (`agents.py`, loop exit test). -/
def execIsSuccess : Option ExecResult → Bool
  | some (ExecResult.success _) => true
  | _ => false

/-- Per-iteration behaviour of the external collaborators, used as an oracle by the
loop model: the result `run_sql_validation` returns for the iteration's current
candidate, the result `run_sql_execution` returns if it is invoked, and the
corrector agent's replacement candidate (its `output_key` is `sql_query`). -/
structure IterBehavior where
  valResult : ValResult
  execResult : ExecResult
  correctedQuery : String

/-- One run of `SQLProcessor._run_async_impl` (`agents.py` lines 40-64): run
validation, then run execution only when the validation result's status is
`success`; otherwise record `{"status": "skipped", "reason": "validation_failed"}`.
Returns the updated state and whether the executor was invoked.
(The early-return paths of `run_sql_validation` that do not write
`validation_result` back to state are absorbed into the oracle's result; no loop
logic reads that key.) -/
def SQLProcessor.step (b : IterBehavior) (s : AgentState) : AgentState × Bool :=
  let s1 := { s with validation_result := some b.valResult }
  match b.valResult with
  | ValResult.success => ({ s1 with execution_result := some b.execResult }, true)
  | ValResult.error _ =>
      ({ s1 with execution_result := some (ExecResult.skipped "validation_failed") }, false)

/-- The execution outcome recorded in state by one `SQLProcessor` run. -/
def iterOutcome (b : IterBehavior) : ExecResult :=
  match b.valResult with
  | ValResult.success => b.execResult
  | ValResult.error _ => ExecResult.skipped "validation_failed"

/-- Terminal outcome of one `CorrectionLoopAgent` run: either the success exit
(carrying the value copied into `final_sql_query`) or the
`max_iterations_reached` error event payload (`last_query`, `final_error`). -/
inductive LoopOutcome
  | succeeded (finalQ : Option String)
  | exhausted (lastQ : String) (finalError : String)
  deriving DecidableEq, Repr

/-- Observable record of one loop iteration: the candidate that was validated, the
validation result, whether the executor was invoked, and the execution outcome
recorded in state. -/
structure IterTrace where
  query : Option String
  valResult : ValResult
  attempted : Bool
  recorded : ExecResult
  deriving DecidableEq, Repr

/-- Everything one `CorrectionLoopAgent._run_async_impl` run produces. -/
structure LoopRun where
  outcome : LoopOutcome
  state : AgentState
  trace : List IterTrace
  /-- number of assignments to `final_sql_query` during the run -/
  finalSetCount : Nat
  /-- number of processor iterations actually executed -/
  iterations : Nat
  /-- number of `max_iterations_reached` error events emitted -/
  terminalFailEvents : Nat
  deriving Repr

/-- Body of `CorrectionLoopAgent._run_async_impl` (`agents.py` lines 131-203),
by remaining fuel.  Each cycle: run the processor; if the recorded execution
result has status `success`, copy `sql_query` into `final_sql_query` and stop;
otherwise invoke the corrector (which replaces `sql_query`) and continue.  When
the fuel is exhausted the terminal error event is emitted carrying
`state.get("sql_query", "Unknown")` and
`execution_result.get("error_message", "Unknown error")`. -/
def CorrectionLoopAgent.loopAux (behav : Nat → IterBehavior) :
    Nat → AgentState → LoopRun
  | 0, s =>
      { outcome := LoopOutcome.exhausted (s.sql_query.getD "Unknown")
          ((s.execution_result.bind ExecResult.errorMessage?).getD "Unknown error")
        state := s, trace := [], finalSetCount := 0, iterations := 0
        terminalFailEvents := 1 }
  | fuel + 1, s =>
      let b := behav 0
      let p := SQLProcessor.step b s
      let s1 := p.1
      let tr : IterTrace :=
        { query := s.sql_query, valResult := b.valResult, attempted := p.2
          recorded := s1.execution_result.getD (ExecResult.skipped "validation_failed") }
      if execIsSuccess s1.execution_result then
        { outcome := LoopOutcome.succeeded s1.sql_query
          state := { s1 with final_sql_query := s1.sql_query }
          trace := [tr], finalSetCount := 1, iterations := 1, terminalFailEvents := 0 }
      else
        let s2 := { s1 with sql_query := some b.correctedQuery }
        let r := CorrectionLoopAgent.loopAux (fun n => behav (n + 1)) fuel s2
        { r with trace := tr :: r.trace, iterations := r.iterations + 1 }

/-- One full `CorrectionLoopAgent` invocation with iteration bound `maxIterations`. -/
def CorrectionLoopAgent.run (maxIterations : Nat) (behav : Nat → IterBehavior)
    (s : AgentState) : LoopRun :=
  CorrectionLoopAgent.loopAux behav maxIterations s

/-- `sql_correction_loop` is instantiated with `max_iterations=3` (`agents.py`
lines 206-211). -/
def sqlCorrectionLoopMaxIterations : Nat := 3

/-- `true` exactly for the success terminal state. -/
def LoopOutcome.isSucceeded : LoopOutcome → Bool
  | LoopOutcome.succeeded _ => true
  | LoopOutcome.exhausted _ _ => false

/-- Some iteration index below `n` has a `success` execution outcome. -/
def anySuccessBelow (behav : Nat → IterBehavior) (n : Nat) : Bool :=
  (List.range n).any fun i => (iterOutcome (behav i)).statusIsSuccess

/-- Per-iteration safety condition: the executor was invoked only under a
successful validation, and a failed validation left the recorded outcome
`skipped`/`validation_failed` with no execution attempt. -/
def traceOk (t : IterTrace) : Bool :=
  (!t.attempted || t.valResult.statusIsSuccess)
  && (t.valResult.statusIsSuccess
      || (!t.attempted && t.recorded == ExecResult.skipped "validation_failed"))

theorem SQLProcessor.step_execution_result (b : IterBehavior) (s : AgentState) :
    (SQLProcessor.step b s).1.execution_result = some (iterOutcome b) := by
  cases h : b.valResult <;> simp [SQLProcessor.step, iterOutcome, h]

theorem SQLProcessor.step_sql_query (b : IterBehavior) (s : AgentState) :
    (SQLProcessor.step b s).1.sql_query = s.sql_query := by
  cases h : b.valResult <;> simp [SQLProcessor.step, h]

theorem SQLProcessor.step_attempted (b : IterBehavior) (s : AgentState) :
    (SQLProcessor.step b s).2 = b.valResult.statusIsSuccess := by
  cases h : b.valResult <;> simp [SQLProcessor.step, ValResult.statusIsSuccess, h]

theorem execIsSuccess_some (e : ExecResult) :
    execIsSuccess (some e) = e.statusIsSuccess := by
  cases e <;> rfl

theorem anySuccessBelow_succ (behav : Nat → IterBehavior) (n : Nat) :
    anySuccessBelow behav (n + 1)
      = ((iterOutcome (behav 0)).statusIsSuccess
          || anySuccessBelow (fun k => behav (k + 1)) n) := by
  show ((List.range (n + 1)).any fun i => (iterOutcome (behav i)).statusIsSuccess) = _
  rw [List.range_succ_eq_map]
  simp only [List.any_cons, List.any_map]
  rfl

theorem loopAux_trace_ok (fuel : Nat) :
    ∀ (behav : Nat → IterBehavior) (s : AgentState),
      ((CorrectionLoopAgent.loopAux behav fuel s).trace.all traceOk) = true := by
  induction fuel with
  | zero => intro behav s; simp [CorrectionLoopAgent.loopAux]
  | succ n ih =>
    intro behav s
    have hok : traceOk
        { query := s.sql_query, valResult := (behav 0).valResult
          attempted := (SQLProcessor.step (behav 0) s).2
          recorded := ((SQLProcessor.step (behav 0) s).1.execution_result).getD
            (ExecResult.skipped "validation_failed") } = true := by
      rw [SQLProcessor.step_attempted, SQLProcessor.step_execution_result]
      cases h : (behav 0).valResult <;>
        simp [traceOk, ValResult.statusIsSuccess, iterOutcome, h]
    simp only [CorrectionLoopAgent.loopAux]
    split
    · simpa [List.all] using hok
    · simpa [List.all, hok] using ih (fun n => behav (n + 1)) _

theorem loopAux_spec (fuel : Nat) :
    ∀ (behav : Nat → IterBehavior) (s : AgentState),
      (CorrectionLoopAgent.loopAux behav fuel s).iterations ≤ fuel
      ∧ (CorrectionLoopAgent.loopAux behav fuel s).outcome.isSucceeded
          = anySuccessBelow behav fuel
      ∧ (CorrectionLoopAgent.loopAux behav fuel s).finalSetCount
          = (if anySuccessBelow behav fuel then 1 else 0) := by
  induction fuel with
  | zero =>
    intro behav s
    simp [CorrectionLoopAgent.loopAux, anySuccessBelow, LoopOutcome.isSucceeded]
  | succ n ih =>
    intro behav s
    have hexec : execIsSuccess ((SQLProcessor.step (behav 0) s).1.execution_result)
        = (iterOutcome (behav 0)).statusIsSuccess := by
      rw [SQLProcessor.step_execution_result, execIsSuccess_some]
    simp only [CorrectionLoopAgent.loopAux]
    split
    · rename_i hs
      rw [hexec] at hs
      simp [LoopOutcome.isSucceeded, anySuccessBelow_succ, hs, Nat.succ_le_succ,
        Nat.zero_le]
    · rename_i hs
      rw [hexec] at hs
      have hs' : (iterOutcome (behav 0)).statusIsSuccess = false := by
        cases h : (iterOutcome (behav 0)).statusIsSuccess
        · rfl
        · exact absurd h hs
      obtain ⟨h1, h2, h3⟩ := ih (fun n => behav (n + 1)) _
      refine ⟨Nat.succ_le_succ h1, ?_, ?_⟩
      · simpa [anySuccessBelow_succ, hs'] using h2
      · simpa [anySuccessBelow_succ, hs'] using h3

theorem loopAux_fail_step (behav : Nat → IterBehavior) (fuel : Nat) (s : AgentState)
    (hs' : (iterOutcome (behav 0)).statusIsSuccess = false) :
    CorrectionLoopAgent.loopAux behav (fuel + 1) s
      = (fun r => { r with
            trace := { query := s.sql_query, valResult := (behav 0).valResult,
                       attempted := (SQLProcessor.step (behav 0) s).2,
                       recorded := iterOutcome (behav 0) } :: r.trace,
            iterations := r.iterations + 1 })
          (CorrectionLoopAgent.loopAux (fun k => behav (k + 1)) fuel
            { (SQLProcessor.step (behav 0) s).1 with
                sql_query := some (behav 0).correctedQuery }) := by
  simp [CorrectionLoopAgent.loopAux, SQLProcessor.step_execution_result,
    execIsSuccess_some, hs']

theorem loopAux_exhausted (fuel : Nat) :
    ∀ (behav : Nat → IterBehavior) (s : AgentState),
      anySuccessBelow behav (fuel + 1) = false →
      (CorrectionLoopAgent.loopAux behav (fuel + 1) s).outcome
        = LoopOutcome.exhausted (behav fuel).correctedQuery
            (((iterOutcome (behav fuel)).errorMessage?).getD "Unknown error")
      ∧ (CorrectionLoopAgent.loopAux behav (fuel + 1) s).terminalFailEvents = 1 := by
  induction fuel with
  | zero =>
    intro behav s h
    rw [anySuccessBelow_succ] at h
    have hs' : (iterOutcome (behav 0)).statusIsSuccess = false := by
      cases hx : (iterOutcome (behav 0)).statusIsSuccess
      · rfl
      · rw [hx] at h; simp at h
    simp [CorrectionLoopAgent.loopAux, SQLProcessor.step_execution_result,
      execIsSuccess_some, hs']
  | succ n ih =>
    intro behav s h
    rw [anySuccessBelow_succ] at h
    have hs' : (iterOutcome (behav 0)).statusIsSuccess = false := by
      cases hx : (iterOutcome (behav 0)).statusIsSuccess
      · rfl
      · rw [hx] at h; simp at h
    have hrest : anySuccessBelow (fun k => behav (k + 1)) (n + 1) = false := by
      rw [hs'] at h; simpa using h
    obtain ⟨h1, h2⟩ := ih (fun k => behav (k + 1))
      ({ (SQLProcessor.step (behav 0) s).1 with
          sql_query := some (behav 0).correctedQuery }) hrest
    rw [loopAux_fail_step behav (n + 1) s hs']
    exact ⟨h1, h2⟩

/-- Oracle behaviours exhibiting the divergence of `CorrectionLoopAgent`'s
exhaustion payload from the spec: iteration 0 executes and fails with a concrete
driver error, iterations 1 and 2 fail validation (execution skipped), and the
corrector keeps producing fresh candidates. -/
def c3behav : Nat → IterBehavior
  | 0 => ⟨ValResult.success, ExecResult.error "no such table: orders", "SELECT 2;"⟩
  | 1 => ⟨ValResult.error ["unresolved column"], ExecResult.error "unused", "SELECT 3;"⟩
  | _ => ⟨ValResult.error ["unresolved column"], ExecResult.error "unused", "SELECT 4;"⟩

/-- C1: for every turn and every iteration of the correction loop, the executor is
invoked on the current candidate only if the immediately preceding validation of
that candidate returned status `success`; whenever validation returns `error`,
execution is not attempted and the execution outcome recorded in state is
`{status: skipped, reason: validation_failed}`. -/
theorem C1_executor_gated_on_validation (maxIterations : Nat)
    (behav : Nat → IterBehavior) (s : AgentState) :
    ((CorrectionLoopAgent.run maxIterations behav s).trace.all traceOk) = true :=
  loopAux_trace_ok maxIterations behav s

/-- C2: for every sequence of validation/execution outcomes supplied to one turn,
the correction loop terminates within `max_iterations` cycles (and
`sql_correction_loop` uses the default bound 3); it reaches its success terminal
state if and only if some iteration's execution outcome is `success`; and
`final_sql_query` is assigned exactly once, only in that case — otherwise the run
ends in the exhausted terminal outcome. -/
theorem C2_loop_termination_and_success (maxIterations : Nat)
    (behav : Nat → IterBehavior) (s : AgentState) :
    (CorrectionLoopAgent.run maxIterations behav s).iterations ≤ maxIterations
    ∧ (CorrectionLoopAgent.run maxIterations behav s).outcome.isSucceeded
        = anySuccessBelow behav maxIterations
    ∧ (CorrectionLoopAgent.run maxIterations behav s).finalSetCount
        = (if anySuccessBelow behav maxIterations then 1 else 0)
    ∧ sqlCorrectionLoopMaxIterations = 3 := by
  obtain ⟨h1, h2, h3⟩ := loopAux_spec maxIterations behav s
  exact ⟨h1, h2, h3, rfl⟩

/-- C3 (counterexample): with candidates `SELECT 1;`..`SELECT 4;`, iteration 0
executes and fails with "no such table: orders", and iterations 1-2 skip
execution after validation failures.  The exhaustion event then attaches
`SELECT 4;` — the corrector's final replacement, which was never validated or
attempted — and the error message "Unknown error", even though the execution
error message "no such table: orders" was recorded during the run.  This refutes
the claim that the attached query is the last attempted candidate and that
"Unknown error" appears only when no execution error message was ever recorded. -/
theorem C3_counterexample_exhaustion_payload :
    (CorrectionLoopAgent.run 3 c3behav { sql_query := some "SELECT 1;" }).outcome
      = LoopOutcome.exhausted "SELECT 4;" "Unknown error"
    ∧ (CorrectionLoopAgent.run 3 c3behav { sql_query := some "SELECT 1;" }).trace.map
        IterTrace.query = [some "SELECT 1;", some "SELECT 2;", some "SELECT 3;"]
    ∧ (CorrectionLoopAgent.run 3 c3behav { sql_query := some "SELECT 1;" }).trace.map
        IterTrace.recorded
        = [ExecResult.error "no such table: orders",
           ExecResult.skipped "validation_failed", ExecResult.skipped "validation_failed"]
    ∧ (((CorrectionLoopAgent.run 3 c3behav { sql_query := some "SELECT 1;" }).trace.map
          IterTrace.query).contains (some "SELECT 4;")) = false
    ∧ (("Unknown error" : String) == "no such table: orders") = false := by
  refine ⟨by decide, by decide, by decide, by decide, by decide⟩

/-- C3 (amended): when the correction loop exhausts its iteration bound without an
execution success, it emits exactly one terminal failure signal; the attached
query is the corrector's replacement candidate produced after the final failed
iteration (which was never itself attempted), and the attached error message is
the `error_message` of the final iteration's recorded execution outcome, or
"Unknown error" when that outcome carries none (in particular whenever the final
iteration's execution was skipped after a validation failure). -/
theorem C3_exhaustion_payload (maxIterations : Nat) (behav : Nat → IterBehavior)
    (s : AgentState) (hpos : 0 < maxIterations)
    (hfail : anySuccessBelow behav maxIterations = false) :
    (CorrectionLoopAgent.run maxIterations behav s).outcome
      = LoopOutcome.exhausted (behav (maxIterations - 1)).correctedQuery
          (((iterOutcome (behav (maxIterations - 1))).errorMessage?).getD "Unknown error")
    ∧ (CorrectionLoopAgent.run maxIterations behav s).terminalFailEvents = 1 := by
  obtain ⟨fuel, rfl⟩ : ∃ fuel, maxIterations = fuel + 1 :=
    ⟨maxIterations - 1, (Nat.succ_pred_eq_of_pos hpos).symm⟩
  simpa using loopAux_exhausted fuel behav s hfail

/-- Witness for C3's amended theorem at the counterexample input. -/
theorem C3_exhaustion_payload_witness :
    (CorrectionLoopAgent.run 3 c3behav { sql_query := some "SELECT 1;" }).outcome
      = LoopOutcome.exhausted (c3behav 2).correctedQuery
          (((iterOutcome (c3behav 2)).errorMessage?).getD "Unknown error")
    ∧ (CorrectionLoopAgent.run 3 c3behav { sql_query := some "SELECT 1;" }).terminalFailEvents
        = 1 :=
  C3_exhaustion_payload 3 c3behav { sql_query := some "SELECT 1;" }
    (by decide) (by decide)

/-! ### Query executor (`engine.py`, `SQLExecutor.execute`) -/

/-- State of a DB-API connection as managed by `SQLExecutor.execute`.
Per the Python documentation, `sqlite3.Connection.__exit__` (and likewise
psycopg2's) commits the pending transaction on normal exit and rolls it back on
an exception, but in neither case closes the connection. -/
structure Conn where
  isOpen : Bool
  committed : Bool
  rolledBack : Bool
  deriving DecidableEq, Repr

/-- `sqlite3.connect(db_uri)` / `psycopg2.connect(db_uri)`: a fresh open connection. -/
def Conn.acquire : Conn := { isOpen := true, committed := false, rolledBack := false }

/-- `with conn:` block exit on the no-exception path: commit, do not close. -/
def Conn.exitNormal (c : Conn) : Conn := { c with committed := true }

/-- `with conn:` block exit on the exception path: roll back, do not close. -/
def Conn.exitRaise (c : Conn) : Conn := { c with rolledBack := true }

/-- Oracle for what the DB driver does during one `execute` call: the connect,
`cursor.execute`, or `fetchall` step raises, or the query succeeds with rows. -/
inductive DriverOutcome
  | connectFail (msg : String)
  | executeFail (msg : String)
  | fetchFail (msg : String)
  | ok (rows : List Row)
  deriving DecidableEq, Repr

/-- `SQLExecutor.execute` (`engine.py` lines 65-82): a `try` around
`with self.dialect.get_connection(self.db_uri) as conn`, `cursor.execute`,
`fetchall`; on success returns `(result, None)`, on any exception `(None, str(e))`.
Alongside the returned pair we expose the final state of the connection the call
acquired (`none` when `connect` itself raised before a connection existed). -/
def SQLExecutor.execute (drv : DriverOutcome) :
    (Option (List Row) × Option String) × Option Conn :=
  match drv with
  | DriverOutcome.connectFail m => ((none, some m), none)
  | DriverOutcome.executeFail m => ((none, some m), some Conn.acquire.exitRaise)
  | DriverOutcome.fetchFail m => ((none, some m), some Conn.acquire.exitRaise)
  | DriverOutcome.ok rows => ((some rows, none), some Conn.acquire.exitNormal)

/-- C7: for every driver behaviour, `execute` returns exactly one of its two
components — `(rows, nil)` on success with the rows being exactly the fetched
result set (so the row count matches), `(nil, message)` on any failure during
connect, execute, or fetch — and, being a total function, never lets an
exception propagate past its boundary. -/
theorem C7_execute_exclusive_result :
    (∀ drv : DriverOutcome,
      ((((SQLExecutor.execute drv).1.1.isSome && (SQLExecutor.execute drv).1.2.isNone)
        || ((SQLExecutor.execute drv).1.1.isNone && (SQLExecutor.execute drv).1.2.isSome))
        = true))
    ∧ (∀ rows : List Row,
        (SQLExecutor.execute (DriverOutcome.ok rows)).1 = (some rows, none))
    ∧ (∀ m : String,
        (SQLExecutor.execute (DriverOutcome.connectFail m)).1 = (none, some m)
        ∧ (SQLExecutor.execute (DriverOutcome.executeFail m)).1 = (none, some m)
        ∧ (SQLExecutor.execute (DriverOutcome.fetchFail m)).1 = (none, some m)) := by
  refine ⟨fun drv => ?_, fun rows => rfl, fun m => ⟨rfl, rfl, rfl⟩⟩
  cases drv <;> rfl

/-- C4 (the code contradicts the claim): on every exit path of
`SQLExecutor.execute` the acquired connection is still open when the call
returns — the `with conn:` block only commits or rolls back the transaction, it
never closes the connection (despite the source comment "conn.close() are
auto-called!").  In particular a successful `SELECT` leaves a dangling open
connection. -/
theorem C4_execute_leaves_connection_open :
    (∀ drv : DriverOutcome,
      (((SQLExecutor.execute drv).2.map Conn.isOpen).getD true) = true)
    ∧ (SQLExecutor.execute (DriverOutcome.ok [["1"]])).2
        = some { isOpen := true, committed := true, rolledBack := false }
    ∧ (SQLExecutor.execute (DriverOutcome.executeFail "no such table: orders")).2
        = some { isOpen := true, committed := false, rolledBack := true } := by
  refine ⟨fun drv => ?_, rfl, rfl⟩
  cases drv <;> rfl

/-! ### String helpers

Character-list implementations of the Python string operations the sources use
(`in`, `.lower()`, `.strip()`, `.startswith`, `.split`), kept structurally
recursive so that concrete instances evaluate inside `decide`/`rfl` proofs. -/

/-- `sub` occurs as a contiguous sublist of `cs` (Python `sub in s`). -/
def subAux (sub : List Char) : List Char → Bool
  | [] => sub.isEmpty
  | c :: rest => sub.isPrefixOf (c :: rest) || subAux sub rest

/-- Python `sub in s` on strings. -/
def containsSub (s sub : String) : Bool := subAux sub.data s.data

/-- Python `str.lower()`, character-wise. -/
def lowerChars (cs : List Char) : List Char := cs.map Char.toLower

/-- Python `str.strip()`: drop whitespace from both ends. -/
def trimChars (cs : List Char) : List Char :=
  ((cs.dropWhile Char.isWhitespace).reverse.dropWhile Char.isWhitespace).reverse

/-- `s.lower().strip()` as used by both type-genericization helpers. -/
def lowerStrip (s : String) : String := String.mk (trimChars (lowerChars s.data))

/-- Python `str.startswith(p)`. -/
def startsWith (s p : String) : Bool := p.data.isPrefixOf s.data

/-! ### Type genericization (`dialects/sqlite.py`, `dialects/postgres.py`) -/

/-- `SQLiteDialect._sqlite_type_to_generic` (`sqlite.py` lines 123-145): substring
heuristics over the lowercased, stripped native type name.  Note there is no
timestamp or date category. -/
def SQLiteDialect.sqliteTypeToGeneric (sqlite_type : String) : String :=
  let t := lowerStrip sqlite_type
  if containsSub t "int" then "integer"
  else if containsSub t "bool" then "boolean"
  else if containsSub t "char" || containsSub t "clob" || containsSub t "text" then "text"
  else if containsSub t "real" || containsSub t "floa" || containsSub t "doub"
      || containsSub t "numeric" || containsSub t "decimal" then "number"
  else "text"

/-- `PostgreSQLDialect._postgres_type_to_generic` (`postgres.py` lines 123-139). -/
def PostgreSQLDialect.postgresTypeToGeneric (postgres_type : String) : String :=
  let t := lowerStrip postgres_type
  if containsSub t "int" then "INTEGER"
  else if containsSub t "char" || containsSub t "text" then "TEXT"
  else if containsSub t "numeric" || containsSub t "decimal" || containsSub t "real"
      || containsSub t "float" || containsSub t "double" then "NUMBER"
  else if startsWith t "timestamp" then "TIMESTAMP"
  else if containsSub t "date" then "DATE"
  else if containsSub t "bool" then "BOOLEAN"
  else "TEXT"

/-- Modelled from the spec: the classifier the claim describes —
"any type name containing `int` maps to integer; containing `char`, `text`, or
`clob` to text; containing `real`, `floa`, `doub`, `numeric`, or `decimal` to
number; containing `bool` to boolean; prefixed `timestamp` to timestamp;
containing `date` to date; anything else to text" — read over the lowercased
type name, with the checks in the order listed. -/
def specGenericizeNativeType (nativeType : String) : String :=
  let t := lowerStrip nativeType
  if containsSub t "int" then "integer"
  else if containsSub t "char" || containsSub t "text" || containsSub t "clob" then "text"
  else if containsSub t "real" || containsSub t "floa" || containsSub t "doub"
      || containsSub t "numeric" || containsSub t "decimal" then "number"
  else if containsSub t "bool" then "boolean"
  else if startsWith t "timestamp" then "timestamp"
  else if containsSub t "date" then "date"
  else "text"

/-- Case-normalized comparison of generic-type categories (the PostgreSQL dialect
returns its categories uppercased; `map_type_to_ddl` lowercases its input, so
categories are equivalent up to case). -/
def sameCategory (a b : String) : Bool := lowerStrip a == lowerStrip b

/-- C9 (counterexample): the concrete classifiers do not follow the claimed
heuristics.  `"date"` contains none of the claimed substrings except `date`, so
the claim assigns it the date category, but the SQLite classifier has no date
case and yields text; `"timestamp"` likewise yields text, not timestamp.  The
PostgreSQL classifier checks `float`/`double` rather than `floa`/`doub`, so
`"floa"` yields text rather than number, and it checks `bool` after `date`, so
`"booldate"` yields date rather than boolean. -/
theorem C9_counterexample_generic_types :
    SQLiteDialect.sqliteTypeToGeneric "date" = "text"
    ∧ specGenericizeNativeType "date" = "date"
    ∧ SQLiteDialect.sqliteTypeToGeneric "timestamp" = "text"
    ∧ specGenericizeNativeType "timestamp" = "timestamp"
    ∧ PostgreSQLDialect.postgresTypeToGeneric "floa" = "TEXT"
    ∧ specGenericizeNativeType "floa" = "number"
    ∧ PostgreSQLDialect.postgresTypeToGeneric "booldate" = "DATE"
    ∧ specGenericizeNativeType "booldate" = "boolean"
    ∧ sameCategory "text" "date" = false
    ∧ sameCategory "TEXT" "number" = false
    ∧ sameCategory "DATE" "boolean" = false := by
  refine ⟨?_, ?_, ?_, ?_, ?_, ?_, ?_, ?_, ?_, ?_, ?_⟩ <;> decide

/-- Modelled from the spec: the SQLite classifier the amendment describes — `int`
to integer, else `bool` to boolean, else `char`/`clob`/`text` to text, else
`real`/`floa`/`doub`/`numeric`/`decimal` to number, anything else (including
date and timestamp types) to text. -/
def amendedSqliteGenericize (nativeType : String) : String :=
  let t := lowerStrip nativeType
  if containsSub t "int" then "integer"
  else if containsSub t "bool" then "boolean"
  else if containsSub t "char" || containsSub t "clob" || containsSub t "text" then "text"
  else if containsSub t "real" || containsSub t "floa" || containsSub t "doub"
      || containsSub t "numeric" || containsSub t "decimal" then "number"
  else "text"

/-- Modelled from the spec: the PostgreSQL classifier the amendment describes —
`int` to integer, else `char`/`text` to text, else
`numeric`/`decimal`/`real`/`float`/`double` to number, else the `timestamp`
prefix to timestamp, else `date` to date, else `bool` to boolean, anything else
to text (categories reported uppercase). -/
def amendedPostgresGenericize (nativeType : String) : String :=
  let t := lowerStrip nativeType
  if containsSub t "int" then "INTEGER"
  else if containsSub t "char" || containsSub t "text" then "TEXT"
  else if containsSub t "numeric" || containsSub t "decimal" || containsSub t "real"
      || containsSub t "float" || containsSub t "double" then "NUMBER"
  else if startsWith t "timestamp" then "TIMESTAMP"
  else if containsSub t "date" then "DATE"
  else if containsSub t "bool" then "BOOLEAN"
  else "TEXT"

/-- C9 (amended): each concrete dialect's classifier follows its own documented
substring heuristics — SQLite: `int` → integer, `bool` → boolean,
`char`/`clob`/`text` → text, `real`/`floa`/`doub`/`numeric`/`decimal` → number,
else text (no timestamp or date categories); PostgreSQL: `int` → integer,
`char`/`text` → text, `numeric`/`decimal`/`real`/`float`/`double` → number,
`timestamp` prefix → timestamp, `date` → date, `bool` → boolean, else text —
checked in those orders over the lowercased, stripped type name. -/
theorem C9_generic_type_heuristics (t : String) :
    SQLiteDialect.sqliteTypeToGeneric t = amendedSqliteGenericize t
    ∧ PostgreSQLDialect.postgresTypeToGeneric t = amendedPostgresGenericize t :=
  ⟨rfl, rfl⟩

/-! ### Python-dict association lists -/

/-- Python dict read `m.get(k)` / `m[k]`. -/
def lookupDict {α : Type} : List (String × α) → String → Option α
  | [], _ => none
  | (k, v) :: m, n => bif k == n then some v else lookupDict m n

/-- Python dict write `m[k] = v`: replace in place when the key is present,
append otherwise (insertion-ordered dict semantics). -/
def dictInsert {α : Type} (m : List (String × α)) (k : String) (v : α) :
    List (String × α) :=
  bif m.any (fun kv => kv.1 == k) then
    m.map (fun kv => bif kv.1 == k then (k, v) else kv)
  else m ++ [(k, v)]

/-! ### DDL parser (`dialects/dialect.py`, `_parse_ddl_to_sqlglot_schema`) -/

/-- One expression inside a parsed `CREATE TABLE` body (`exp.Schema.expressions`):
a column definition (whose `kind`, the declared type, may be absent) or any
other node (constraints etc.), which the parser skips. -/
inductive SchemaItem
  | colDef (name : String) (kind : Option String)
  | otherItem
  deriving DecidableEq, Repr

/-- A top-level sqlglot expression as far as `_parse_ddl_to_sqlglot_schema`
inspects it: a `CREATE` of kind `TABLE` whose `this` is an `exp.Schema` with
column items (`body = some items`) or some other node (`body = none`, e.g.
`CREATE TABLE t AS SELECT`), or anything that is not a `CREATE ... TABLE`. -/
inductive SGExpr
  | createTable (name : String) (body : Option (List SchemaItem))
  | otherExpr
  deriving DecidableEq, Repr

/-- The outcome of `sqlglot.parse` on one statement: an exception, or a list of
expressions (possibly empty). -/
abbrev ParsedStmt := Except String (List SGExpr)

/-- A table's column dict, built by iterating the schema body's column
definitions; a column with no declared type contributes `"UNKNOWN"`. -/
def columnsOfBody (items : List SchemaItem) : List (String × String) :=
  items.foldl
    (fun acc it =>
      match it with
      | SchemaItem.colDef n k => dictInsert acc n (k.getD "UNKNOWN")
      | SchemaItem.otherItem => acc)
    []

/-- Processing of one split statement inside the `for statement in statements`
loop: a parse exception or an empty expression list contributes nothing; the
first parsed expression, when it is a `CREATE TABLE` with an `exp.Schema` body,
stores its column dict under the table name; everything else is skipped. -/
def stmtStep (schema : List (String × List (String × String))) (p : ParsedStmt) :
    List (String × List (String × String)) :=
  match p with
  | Except.error _ => schema
  | Except.ok [] => schema
  | Except.ok (e :: _) =>
    match e with
    | SGExpr.createTable name body =>
      match body with
      | some items => dictInsert schema name (columnsOfBody items)
      | none => schema
    | SGExpr.otherExpr => schema

/-- Python `ddl_string.split(";")` on the character list. -/
def splitOnSemicolon : List Char → List (List Char)
  | [] => [[]]
  | c :: rest =>
    let r := splitOnSemicolon rest
    if c = ';' then [] :: r
    else
      match r with
      | [] => [[c]]
      | g :: gs => (c :: g) :: gs

/-- `[s.strip() for s in ddl_string.split(";") if s.strip()]`. -/
def ddlStatements (ddl : String) : List String :=
  ((splitOnSemicolon ddl.data).map (fun cs => String.mk (trimChars cs))).filter
    (fun s => s ≠ "")

/-- `DatabaseDialect._parse_ddl_to_sqlglot_schema` (`dialect.py` lines 88-139),
with `sqlglot.parse` supplied as an oracle: split the DDL on `;`, drop blank
segments, and fold each statement's parse outcome into the schema dict. -/
def parseDDLToSchema (parseStmt : String → ParsedStmt) (ddl : String) :
    List (String × List (String × String)) :=
  (ddlStatements ddl).foldl (fun sc st => stmtStep sc (parseStmt st)) []

/-- A statement that contributes to the schema: it parses, and its first
expression is a `CREATE TABLE` with a column-schema body.  Returns the table
name and column dict it contributes. -/
def wfEntry? (p : ParsedStmt) : Option (String × List (String × String)) :=
  match p with
  | Except.ok (SGExpr.createTable name (some items) :: _) =>
      some (name, columnsOfBody items)
  | _ => none

/-- The contributions of a list of parse outcomes, in order. -/
def wfEntries (ps : List ParsedStmt) : List (String × List (String × String)) :=
  ps.filterMap wfEntry?

/-- The value attached to the LAST entry with key `n`, if any. -/
def lastEntryFor {α : Type} : List (String × α) → String → Option α
  | [], _ => none
  | (k, v) :: es, n =>
    match lastEntryFor es n with
    | some c => some c
    | none => bif k == n then some v else none

/-- The keys of a dict, in insertion order. -/
def keysOf {α : Type} (m : List (String × α)) : List String := m.map Prod.fst

theorem lookupDict_map_replace_ne {α : Type} (m : List (String × α)) (k n : String)
    (v : α) (hkn : (k == n) = false) :
    lookupDict (m.map (fun kv => bif kv.1 == k then (k, v) else kv)) n
      = lookupDict m n := by
  induction m with
  | nil => rfl
  | cons a m ih =>
    cases hak : a.1 == k with
    | false => simp [lookupDict, hak, ih]
    | true =>
      have h1 : a.1 = k := eq_of_beq hak
      simp [lookupDict, hak, h1, hkn, ih]

theorem lookupDict_map_replace_eq {α : Type} (m : List (String × α)) (k : String)
    (v : α) (hany : (m.any fun kv => kv.1 == k) = true) :
    lookupDict (m.map (fun kv => bif kv.1 == k then (k, v) else kv)) k = some v := by
  induction m with
  | nil => simp at hany
  | cons a m ih =>
    cases hak : a.1 == k with
    | true => simp [lookupDict, hak]
    | false =>
      have htail : (m.any fun kv => kv.1 == k) = true := by
        simpa [List.any_cons, hak] using hany
      simp [lookupDict, hak, ih htail]

theorem lookupDict_append_single {α : Type} (m : List (String × α)) (k n : String)
    (v : α) (hany : (m.any fun kv => kv.1 == k) = false) :
    lookupDict (m ++ [(k, v)]) n = bif k == n then some v else lookupDict m n := by
  induction m with
  | nil => simp [lookupDict]
  | cons a m ih =>
    rw [List.any_cons, Bool.or_eq_false_iff] at hany
    obtain ⟨h1, h2⟩ := hany
    cases han : a.1 == n with
    | true =>
      have hkn : (k == n) = false := by
        cases hx : k == n with
        | false => rfl
        | true =>
          have : k = n := eq_of_beq hx
          subst this
          rw [han] at h1
          exact h1
      simp [lookupDict, han, hkn]
    | false => simp [lookupDict, han, ih h2]

theorem lookupDict_dictInsert {α : Type} (m : List (String × α)) (k n : String)
    (v : α) :
    lookupDict (dictInsert m k v) n = bif k == n then some v else lookupDict m n := by
  unfold dictInsert
  cases hany : (m.any fun kv => kv.1 == k) with
  | true =>
    cases hkn : k == n with
    | true =>
      have : k = n := eq_of_beq hkn
      subst this
      simp [lookupDict_map_replace_eq m k v hany]
    | false => simp [hkn, lookupDict_map_replace_ne m k n v hkn]
  | false =>
    simp only [cond_false]
    exact lookupDict_append_single m k n v hany

theorem keysOf_dictInsert_of_mem {α : Type} (m : List (String × α)) (k : String)
    (v : α) (hany : (m.any fun kv => kv.1 == k) = true) :
    keysOf (dictInsert m k v) = keysOf m := by
  unfold dictInsert
  rw [hany, cond_true]
  unfold keysOf
  rw [List.map_map]
  apply List.map_congr_left
  intro kv _
  cases hak : kv.1 == k with
  | true =>
    have : kv.1 = k := eq_of_beq hak
    simp [Function.comp, hak, this]
  | false => simp [Function.comp, hak]

theorem keysOf_dictInsert_of_not_mem {α : Type} (m : List (String × α)) (k : String)
    (v : α) (hany : (m.any fun kv => kv.1 == k) = false) :
    keysOf (dictInsert m k v) = keysOf m ++ [k] := by
  unfold dictInsert
  rw [hany, cond_false]
  simp [keysOf]

theorem nodup_keysOf_dictInsert {α : Type} (m : List (String × α)) (k : String)
    (v : α) (h : (keysOf m).Nodup) : (keysOf (dictInsert m k v)).Nodup := by
  cases hany : (m.any fun kv => kv.1 == k) with
  | true => rw [keysOf_dictInsert_of_mem m k v hany]; exact h
  | false =>
    rw [keysOf_dictInsert_of_not_mem m k v hany]
    have hk : k ∉ keysOf m := by
      intro hmem
      obtain ⟨kv, hkv, hfst⟩ := List.mem_map.mp hmem
      have : (m.any fun kv => kv.1 == k) = true := by
        rw [List.any_eq_true]
        exact ⟨kv, hkv, by rw [hfst]; exact beq_self_eq_true k⟩
      rw [this] at hany
      simp at hany
    simp [List.nodup_append, h, hk]

theorem stmtStep_eq (sc : List (String × List (String × String))) (p : ParsedStmt) :
    stmtStep sc p
      = match wfEntry? p with
        | some e => dictInsert sc e.1 e.2
        | none => sc := by
  cases p with
  | error e => rfl
  | ok es =>
    cases es with
    | nil => rfl
    | cons e rest =>
      cases e with
      | createTable name body => cases body <;> rfl
      | otherExpr => rfl

theorem lookup_foldl_stmtStep (ps : List ParsedStmt) :
    ∀ (acc : List (String × List (String × String))) (n : String),
      lookupDict (ps.foldl stmtStep acc) n
        = match lastEntryFor (wfEntries ps) n with
          | some c => some c
          | none => lookupDict acc n := by
  induction ps with
  | nil => intro acc n; rfl
  | cons p ps ih =>
    intro acc n
    rw [List.foldl_cons, stmtStep_eq]
    cases hp : wfEntry? p with
    | none =>
      rw [ih]
      have hwf : wfEntries (p :: ps) = wfEntries ps := by
        simp [wfEntries, List.filterMap_cons, hp]
      rw [hwf]
    | some e =>
      obtain ⟨en, ec⟩ := e
      rw [ih]
      have hwf : wfEntries (p :: ps) = (en, ec) :: wfEntries ps := by
        simp [wfEntries, List.filterMap_cons, hp]
      rw [hwf]
      cases hl : lastEntryFor (wfEntries ps) n with
      | some c => simp [lastEntryFor, hl]
      | none =>
        rw [lookupDict_dictInsert]
        cases hen : en == n <;> simp [lastEntryFor, hl, hen]

theorem nodup_foldl_stmtStep (ps : List ParsedStmt) :
    ∀ acc, (keysOf acc).Nodup → (keysOf (ps.foldl stmtStep acc)).Nodup := by
  induction ps with
  | nil => intro acc h; exact h
  | cons p ps ih =>
    intro acc h
    rw [List.foldl_cons, stmtStep_eq]
    cases hp : wfEntry? p with
    | none => exact ih acc h
    | some e => exact ih _ (nodup_keysOf_dictInsert acc e.1 e.2 h)

/-- Concrete DDL input with two well-formed `CREATE TABLE` statements for the
same table name. -/
def dupDDL : String := "CREATE TABLE t (a INT);CREATE TABLE t (b INT);"

/-- Parse oracle for `dupDDL`'s two statements. -/
def dupParse (st : String) : ParsedStmt :=
  if st == "CREATE TABLE t (a INT)" then
    Except.ok [SGExpr.createTable "t" (some [SchemaItem.colDef "a" (some "INT")])]
  else if st == "CREATE TABLE t (b INT)" then
    Except.ok [SGExpr.createTable "t" (some [SchemaItem.colDef "b" (some "INT")])]
  else Except.error "ParseError"

/-- C5 (counterexample): a DDL text with `k = 2` well-formed `CREATE TABLE`
statements (and no malformed ones) that both create table `t` yields a schema
with a single table — the later statement silently overwrote the earlier one —
refuting "exactly k tables" as universally stated. -/
theorem C5_counterexample_duplicate_tables :
    parseDDLToSchema dupParse dupDDL = [("t", [("b", "INT")])]
    ∧ (((ddlStatements dupDDL).map dupParse).countP
        (fun p => (wfEntry? p).isSome)) = 2
    ∧ ((parseDDLToSchema dupParse dupDDL).length == 2) = false := by
  refine ⟨by decide, by decide, by decide⟩

/-- C5 (amended): empty input yields an empty schema rather than an error; the
parsed schema has one entry per distinct table name among the well-formed
`CREATE TABLE` statements (duplicate names silently overwrite); and the entry
under each name is exactly the column dict contributed by the LAST well-formed
statement bearing that name — so every statement that fails to parse, or is not
a `CREATE TABLE` with a column schema, contributes nothing. -/
theorem C5_ddl_tolerant_schema (parse : String → ParsedStmt) (ddl : String) :
    parseDDLToSchema parse "" = []
    ∧ (keysOf (parseDDLToSchema parse ddl)).Nodup
    ∧ ∀ n, lookupDict (parseDDLToSchema parse ddl) n
        = lastEntryFor (wfEntries ((ddlStatements ddl).map parse)) n := by
  refine ⟨rfl, ?_, ?_⟩
  · unfold parseDDLToSchema
    rw [← List.foldl_map]
    exact nodup_foldl_stmtStep _ [] (by simp [keysOf])
  · intro n
    unfold parseDDLToSchema
    rw [← List.foldl_map, lookup_foldl_stmtStep]
    cases lastEntryFor (wfEntries ((ddlStatements ddl).map parse)) n <;> rfl

/-! ### Schema cache (`dialects/dialect.py`, lines 16-53) -/

/-- One value of `self._schema_cache[db_uri]`: a Python dict that may in
principle hold either, both, or neither of the `"ddl"` and `"sqlglot_schema"`
keys — the invariant proved below is that reachable entries always hold both. -/
structure CacheEntry where
  ddl : Option String
  sqlglot_schema : Option (List (String × List (String × String)))
  deriving DecidableEq, Repr

/-- `self._schema_cache`: dict from connection URI to entry. -/
abbrev SchemaCache := List (String × CacheEntry)

/-- Oracle for `_get_ddl_from_db(db_uri)`: the concrete dialect either raises or
returns the extracted DDL string. -/
abbrev ExtractOracle := String → Except String String

/-- `db_uri in cache and "ddl" in cache[db_uri] and "sqlglot_schema" in cache[db_uri]`. -/
def fullyCached (cache : SchemaCache) (uri : String) : Bool :=
  match lookupDict cache uri with
  | some e => e.ddl.isSome && e.sqlglot_schema.isSome
  | none => false

/-- An entry is complete and internally consistent: it holds a DDL string and
the structured schema parsed from exactly that DDL. -/
def entryConsistent (parse : String → ParsedStmt) (e : CacheEntry) : Bool :=
  match e.ddl, e.sqlglot_schema with
  | some d, some s => s == parseDDLToSchema parse d
  | _, _ => false

/-- Every cached entry is complete and consistent. -/
def cacheConsistent (parse : String → ParsedStmt) (cache : SchemaCache) : Bool :=
  cache.all (fun kv => entryConsistent parse kv.2)

/-- `DatabaseDialect._ensure_schema_cached` (`dialect.py` lines 35-53): return
early when the entry is fully cached; otherwise extract the DDL (which may
raise — modelled by `Except.error`, leaving the cache untouched), parse it, and
store both artifacts in one assignment.  Returns the outcome together with the
resulting cache. -/
def ensure_schema_cached (parse : String → ParsedStmt) (extract : ExtractOracle)
    (cache : SchemaCache) (uri : String) : Except String Unit × SchemaCache :=
  if fullyCached cache uri then (Except.ok (), cache)
  else
    match extract uri with
    | Except.error e => (Except.error e, cache)
    | Except.ok ddl =>
        (Except.ok (),
          dictInsert cache uri
            { ddl := some ddl
              sqlglot_schema := some (parseDDLToSchema parse ddl) })

/-- `DatabaseDialect.get_ddl` (`dialect.py` lines 16-22): ensure the cache when
the URI or its `"ddl"` key is missing, then read `cache[uri]["ddl"]` (a missing
key would raise `KeyError`, modelled as `Except.error`). -/
def get_ddl (parse : String → ParsedStmt) (extract : ExtractOracle)
    (cache : SchemaCache) (uri : String) : Except String String × SchemaCache :=
  let needs : Bool :=
    match lookupDict cache uri with
    | some e => e.ddl.isNone
    | none => true
  let step :=
    bif needs then ensure_schema_cached parse extract cache uri
    else (Except.ok (), cache)
  (match step.1, lookupDict step.2 uri with
   | Except.error e, _ => Except.error e
   | Except.ok _, some e =>
     match e.ddl with
     | some d => Except.ok d
     | none => Except.error "KeyError: ddl"
   | Except.ok _, none => Except.error "KeyError",
   step.2)

/-- `DatabaseDialect.get_sqlglot_schema` (`dialect.py` lines 24-33), analogous. -/
def get_sqlglot_schema (parse : String → ParsedStmt) (extract : ExtractOracle)
    (cache : SchemaCache) (uri : String) :
    Except String (List (String × List (String × String))) × SchemaCache :=
  let needs : Bool :=
    match lookupDict cache uri with
    | some e => e.sqlglot_schema.isNone
    | none => true
  let step :=
    bif needs then ensure_schema_cached parse extract cache uri
    else (Except.ok (), cache)
  (match step.1, lookupDict step.2 uri with
   | Except.error e, _ => Except.error e
   | Except.ok _, some e =>
     match e.sqlglot_schema with
     | some s => Except.ok s
     | none => Except.error "KeyError: sqlglot_schema"
   | Except.ok _, none => Except.error "KeyError",
   step.2)

theorem cacheConsistent_lookup (parse : String → ParsedStmt) (cache : SchemaCache)
    (h : cacheConsistent parse cache = true) (uri : String) (e : CacheEntry)
    (he : lookupDict cache uri = some e) : entryConsistent parse e = true := by
  induction cache with
  | nil => simp [lookupDict] at he
  | cons a m ih =>
    rw [cacheConsistent, List.all_cons, Bool.and_eq_true] at h
    obtain ⟨h1, h2⟩ := h
    rw [lookupDict] at he
    cases hau : a.1 == uri with
    | true =>
      rw [hau, cond_true] at he
      cases he
      exact h1
    | false =>
      rw [hau, cond_false] at he
      exact ih h2 he

theorem cacheConsistent_dictInsert (parse : String → ParsedStmt)
    (cache : SchemaCache) (uri : String) (e : CacheEntry)
    (h : cacheConsistent parse cache = true) (he : entryConsistent parse e = true) :
    cacheConsistent parse (dictInsert cache uri e) = true := by
  unfold dictInsert
  cases hany : (cache.any fun kv => kv.1 == uri) with
  | true =>
    rw [cond_true]
    rw [cacheConsistent, List.all_eq_true]
    intro kv hkv
    obtain ⟨kv0, hkv0, hmap⟩ := List.mem_map.mp hkv
    cases hk : kv0.1 == uri with
    | true =>
      rw [hk, cond_true] at hmap
      rw [← hmap]
      exact he
    | false =>
      rw [hk, cond_false] at hmap
      rw [← hmap]
      rw [cacheConsistent, List.all_eq_true] at h
      exact h kv0 hkv0
  | false =>
    rw [cond_false]
    rw [cacheConsistent, List.all_eq_true]
    intro kv hkv
    rcases List.mem_append.mp hkv with hmem | hmem
    · rw [cacheConsistent, List.all_eq_true] at h
      exact h kv hmem
    · rw [List.mem_singleton] at hmem
      rw [hmem]
      exact he

/-- C6: starting from any consistent cache, `_ensure_schema_cached` (the single
writer, also as invoked through `get_ddl` and `get_sqlglot_schema`) preserves
the two-state invariant: after the call every URI either has no entry or a
complete entry whose structured schema is parsed from exactly its stored DDL;
when extraction raises, the whole cache — in particular the entry for the
requested URI — is left unchanged (no partial entry); and on success the
requested URI is fully cached, both artifacts stored in one atomic assignment. -/
theorem C6_cache_atomic_consistency (parse : String → ParsedStmt)
    (extract : ExtractOracle) (cache : SchemaCache) (uri : String)
    (h : cacheConsistent parse cache = true) :
    cacheConsistent parse (ensure_schema_cached parse extract cache uri).2 = true
    ∧ (∀ e, (ensure_schema_cached parse extract cache uri).1 = Except.error e →
        (ensure_schema_cached parse extract cache uri).2 = cache)
    ∧ ((ensure_schema_cached parse extract cache uri).1 = Except.ok () →
        fullyCached (ensure_schema_cached parse extract cache uri).2 uri = true)
    ∧ cacheConsistent parse (get_ddl parse extract cache uri).2 = true
    ∧ cacheConsistent parse (get_sqlglot_schema parse extract cache uri).2 = true := by
  have hmain :
      cacheConsistent parse (ensure_schema_cached parse extract cache uri).2 = true
      ∧ (∀ e, (ensure_schema_cached parse extract cache uri).1 = Except.error e →
          (ensure_schema_cached parse extract cache uri).2 = cache)
      ∧ ((ensure_schema_cached parse extract cache uri).1 = Except.ok () →
          fullyCached (ensure_schema_cached parse extract cache uri).2 uri = true) := by
    unfold ensure_schema_cached
    cases hfull : fullyCached cache uri with
    | true => simp [hfull, h]
    | false =>
      cases hex : extract uri with
      | error e => simp [hfull, hex, h]
      | ok ddl =>
        have hcons : cacheConsistent parse (dictInsert cache uri
            { ddl := some ddl
              sqlglot_schema := some (parseDDLToSchema parse ddl) }) = true :=
          cacheConsistent_dictInsert parse cache uri _ h (by simp [entryConsistent])
        have hfullins : fullyCached (dictInsert cache uri
            { ddl := some ddl
              sqlglot_schema := some (parseDDLToSchema parse ddl) }) uri = true := by
          unfold fullyCached
          rw [lookupDict_dictInsert]
          simp
        simp [hfull, hex, hcons, hfullins]
  obtain ⟨h1, h2, h3⟩ := hmain
  refine ⟨h1, h2, h3, ?_, ?_⟩
  · have hc : (get_ddl parse extract cache uri).2
        = (bif (match lookupDict cache uri with
            | some e => e.ddl.isNone
            | none => true) then ensure_schema_cached parse extract cache uri
          else (Except.ok (), cache)).2 := rfl
    rw [hc]
    cases (match lookupDict cache uri with
      | some e => e.ddl.isNone
      | none => true) with
    | true => rw [cond_true]; exact h1
    | false => rw [cond_false]; exact h
  · have hc : (get_sqlglot_schema parse extract cache uri).2
        = (bif (match lookupDict cache uri with
            | some e => e.sqlglot_schema.isNone
            | none => true) then ensure_schema_cached parse extract cache uri
          else (Except.ok (), cache)).2 := rfl
    rw [hc]
    cases (match lookupDict cache uri with
      | some e => e.sqlglot_schema.isNone
      | none => true) with
    | true => rw [cond_true]; exact h1
    | false => rw [cond_false]; exact h

/-- Parse oracle used by the cache witness: every statement fails to parse. -/
def w6parse : String → ParsedStmt := fun _ => Except.error "ParseError"

/-- Extraction oracle used by the cache witness. -/
def w6extract : ExtractOracle := fun _ => Except.ok "CREATE TABLE t (a INT);"

/-- Witness for C6 at an empty cache with concrete oracles. -/
theorem C6_cache_atomic_consistency_witness :
    cacheConsistent w6parse (ensure_schema_cached w6parse w6extract [] "db.sqlite").2
      = true
    ∧ (∀ e, (ensure_schema_cached w6parse w6extract [] "db.sqlite").1 = Except.error e →
        (ensure_schema_cached w6parse w6extract [] "db.sqlite").2 = [])
    ∧ ((ensure_schema_cached w6parse w6extract [] "db.sqlite").1 = Except.ok () →
        fullyCached (ensure_schema_cached w6parse w6extract [] "db.sqlite").2
          "db.sqlite" = true)
    ∧ cacheConsistent w6parse (get_ddl w6parse w6extract [] "db.sqlite").2 = true
    ∧ cacheConsistent w6parse
        (get_sqlglot_schema w6parse w6extract [] "db.sqlite").2 = true :=
  C6_cache_atomic_consistency w6parse w6extract [] "db.sqlite" rfl

/-! ### Query validator (`engine.py`, `SQLValidator.validate`) -/

/-- A plain structured schema dict: table name to column dict. -/
abbrev SchemaDict := List (String × List (String × String))

/-- A referenced column resolves against the schema. -/
def columnPresent (schema : SchemaDict) (t c : String) : Bool :=
  match lookupDict schema t with
  | some cols => (lookupDict cols c).isSome
  | none => false

/-- What the sqlglot library does with the candidate query, supplied to the
validator model as an oracle: the outcome of `parse_one` (an exception message,
or success), and the table/column references the qualify pass must resolve. -/
structure QueryAnalysis where
  parse : Except String Unit
  refs : List (String × String)

/-- Model of `sqlglot_optimize(..., validate_qualify_columns=True)` as the
sources rely on it: it succeeds exactly when every referenced column resolves
against the schema, and otherwise raises an `OptimizeError` naming the first
unresolved reference with a "could not be resolved" message. -/
def optimizeModel (schema : SchemaDict) (refs : List (String × String)) :
    Except String Unit :=
  match refs.find? (fun tc => !(columnPresent schema tc.1 tc.2)) with
  | some tc => Except.error ("Column '" ++ tc.2 ++ "' could not be resolved")
  | none => Except.ok ()

/-- `SQLValidator.validate` (`engine.py` lines 16-55): inside one `try`, parse
the query (any parse exception is caught and reported verbatim as the single
error string, before the schema is ever consulted), then build the schema
object and run the optimize/qualify pass; any exception yields
`{"status": "error", "errors": [str(e)]}`, success yields
`{"status": "success"}`.  The function takes no connection: it never touches
the database, and being total it never raises past its boundary. -/
def SQLValidator.validate (q : QueryAnalysis) (schema : SchemaDict) : ValResult :=
  match q.parse with
  | Except.error e => ValResult.error [e]
  | Except.ok _ =>
    match optimizeModel schema q.refs with
    | Except.error e => ValResult.error [e]
    | Except.ok _ => ValResult.success

/-- C8: for every candidate query and structured schema, `validate` returns
`success` when the query parses and references only tables and columns present
in the schema; returns `error` carrying a "could not be resolved" message when
any referenced column is absent; and for a syntactically broken query returns
`error` carrying the parse failure verbatim as a single error string,
independently of the schema — before any semantic check runs — never raising
(it is a total function) and never touching the database (no connection is in
scope). -/
theorem C8_validator_phases (q : QueryAnalysis) (schema : SchemaDict) :
    (∀ e, q.parse = Except.error e →
      SQLValidator.validate q schema = ValResult.error [e])
    ∧ (q.parse = Except.ok () →
        (q.refs.all fun tc => columnPresent schema tc.1 tc.2) = true →
        SQLValidator.validate q schema = ValResult.success)
    ∧ (q.parse = Except.ok () →
        (q.refs.all fun tc => columnPresent schema tc.1 tc.2) = false →
        ∃ c, SQLValidator.validate q schema
          = ValResult.error ["Column '" ++ c ++ "' could not be resolved"]) := by
  refine ⟨?_, ?_, ?_⟩
  · intro e he
    simp [SQLValidator.validate, he]
  · intro hp hall
    have hfind : q.refs.find? (fun tc => !(columnPresent schema tc.1 tc.2)) = none := by
      rw [List.find?_eq_none]
      intro tc htc
      rw [List.all_eq_true] at hall
      simp [hall tc htc]
    simp [SQLValidator.validate, hp, optimizeModel, hfind]
  · intro hp hall
    have hex : ∃ tc ∈ q.refs, (!(columnPresent schema tc.1 tc.2)) = true := by
      rw [← List.any_eq_true]
      rw [← Bool.not_eq_true'] at hall
      simpa [List.all_eq_not_any_not] using hall
    have hfind : (q.refs.find? (fun tc => !(columnPresent schema tc.1 tc.2))).isSome := by
      rw [List.find?_isSome]
      exact hex
    obtain ⟨tc, htc⟩ := Option.isSome_iff_exists.mp hfind
    exact ⟨tc.2, by simp [SQLValidator.validate, hp, optimizeModel, htc]⟩

/-- Witness for C8: a query referencing only a present column validates
successfully; one referencing an absent column yields a resolution error. -/
theorem C8_validator_phases_witness :
    SQLValidator.validate ⟨Except.ok (), [("t", "a")]⟩ [("t", [("a", "INT")])]
      = ValResult.success
    ∧ ∃ c, SQLValidator.validate ⟨Except.ok (), [("t", "bad")]⟩ [("t", [("a", "INT")])]
        = ValResult.error ["Column '" ++ c ++ "' could not be resolved"] :=
  ⟨(C8_validator_phases ⟨Except.ok (), [("t", "a")]⟩ [("t", [("a", "INT")])]).2.1
      rfl (by decide),
   (C8_validator_phases ⟨Except.ok (), [("t", "bad")]⟩ [("t", [("a", "INT")])]).2.2
      rfl (by decide)⟩

/-! ### Validation tool wrapper (`tools.py`, `run_sql_validation`) -/

/-- The environment `run_sql_validation` consults besides the session state:
the `DB_URI` configuration value (the empty string models an unset/falsy value)
and the filesystem facts `os.path.exists(DB_URI)` / `os.path.getsize(DB_URI)`. -/
structure ToolsEnv where
  dbUri : String
  pathExists : Bool
  fileSize : Nat
  deriving DecidableEq, Repr

/-- Python `not sqlglot_schema`: the state value is `None` or an empty dict. -/
def schemaFalsy : Option SqlglotSchema → Bool
  | none => true
  | some s => s.isEmpty

/-- Python `"error" in sqlglot_schema`: dict key membership. -/
def hasErrorKey (s : SqlglotSchema) : Bool := s.any (fun kv => kv.1 == "error")

/-- The `error_details` list built in `run_sql_validation`'s unavailable-schema
branch (`tools.py` lines 72-97): why the schema is unusable, whether `DB_URI`
is set, and — for file-based URIs (no `"://"`) — whether the database file
exists and is non-empty. -/
def unavailableDetails (env : ToolsEnv) (schema : Option SqlglotSchema) :
    List String :=
  let d1 : List String :=
    if schemaFalsy schema then ["SQLGlot schema is None or empty"]
    else if hasErrorKey (schema.getD []) then
      ["SQLGlot schema contains error: "
        ++ ((lookupDict (schema.getD []) "error").map SchemaVal.asText).getD ""]
    else []
  let d2 : List String :=
    if env.dbUri == "" then ["DB_URI environment variable is not set"]
    else ["DB_URI is set to: " ++ env.dbUri]
  let d3 : List String :=
    if env.dbUri != "" && !(containsSub env.dbUri "://") then
      (if !env.pathExists then ["Database file does not exist: " ++ env.dbUri]
       else if env.fileSize == 0 then ["Database file is empty: " ++ env.dbUri]
       else [])
    else if env.dbUri != "" && containsSub env.dbUri "://" then
      ["Ensure the database server is running and accessible."]
    else []
  d1 ++ d2 ++ d3

/-- `run_sql_validation` (`tools.py` lines 48-113): report a missing/empty
candidate; then, when the schema in state is falsy or carries an `"error"`
key, return the unavailable-schema error without calling the validator;
otherwise delegate to `SQLValidator.validate` (its result supplied here as an
oracle) and write it back to state.  Returns the result, the updated state and
whether the validator was invoked. -/
def run_sql_validation (env : ToolsEnv) (validatorResult : ValResult)
    (state : AgentState) : ValResult × AgentState × Bool :=
  let q := (state.sql_query.getD "")
  if q == "" then
    (ValResult.error ["No SQL query found in state to validate."], state, false)
  else if schemaFalsy state.sqlglot_schema
      || hasErrorKey (state.sqlglot_schema.getD []) then
    (ValResult.error
      ("Database schema not available for validation."
        :: unavailableDetails env state.sqlglot_schema),
     state, false)
  else
    (validatorResult,
     { state with validation_result := some validatorResult }, true)

/-- C10: whenever state holds a (nonempty) candidate query and the structured
schema in state is absent/empty or contains a key named `"error"` — as it does
for a database with zero user tables, after a schema-load failure, or for a
database genuinely containing a table named `error` — the validation step
returns status `error` with first message
"Database schema not available for validation." and the validator itself is
never invoked, so no query can ever be validated against such a schema. -/
theorem C10_schema_gate (env : ToolsEnv) (validatorResult : ValResult)
    (state : AgentState) (q : String) (hq : state.sql_query = some q)
    (hq2 : (q == "") = false)
    (hs : (schemaFalsy state.sqlglot_schema
        || hasErrorKey (state.sqlglot_schema.getD [])) = true) :
    run_sql_validation env validatorResult state
      = (ValResult.error
          ("Database schema not available for validation."
            :: unavailableDetails env state.sqlglot_schema),
         state, false) := by
  unfold run_sql_validation
  rw [hq]
  simp only [Option.getD_some, hq2, Bool.false_eq_true, if_false, hs, if_true]

/-- Witness for C10: a concrete state whose schema dict contains a table named
`error` (with ordinary columns), a nonempty candidate, and a validator oracle
that would have succeeded — the gate still reports the schema as unavailable
and never invokes the validator. -/
theorem C10_schema_gate_witness :
    run_sql_validation ⟨"sakila.db", true, 42⟩ ValResult.success
      { sql_query := some "SELECT 1;"
        sqlglot_schema := some [("error", SchemaVal.cols [("id", "INT")])] }
      = (ValResult.error
          ("Database schema not available for validation."
            :: unavailableDetails ⟨"sakila.db", true, 42⟩
              (some [("error", SchemaVal.cols [("id", "INT")])])),
         { sql_query := some "SELECT 1;"
           sqlglot_schema := some [("error", SchemaVal.cols [("id", "INT")])] },
         false) :=
  C10_schema_gate ⟨"sakila.db", true, 42⟩ ValResult.success
    { sql_query := some "SELECT 1;"
      sqlglot_schema := some [("error", SchemaVal.cols [("id", "INT")])] }
    "SELECT 1;" rfl (by decide) (by decide)

end TextToSQL
